import Mathlib

/-!
Verification of the Zano chat UI state machine (src/index.tsx).

The source is a single React component.  Its state is five `useState`
cells: `chat` (the external session handle, or null), `messages`
(the conversation, a list of role/text records), `userInput` (the text
field), `isLoading` (the in-flight flag) and `error` (the error banner
text, or null).  We embed that state as a structure and each handler as
a pure state transformer; the external stream is embedded as its
observable outcome, namely the finite list of text chunks delivered and
whether the stream then succeeded or failed.
-/

namespace Zano

/-- Message role, from the source union type `'user' | 'model'`. -/
inductive Role where
  | user
  | model
deriving DecidableEq, Repr

/-- A conversation entry: `interface Message { role; text }` in the source. -/
structure Message where
  role : Role
  text : String
deriving DecidableEq, Repr

/-- The component state: the five `useState` cells of `App`.
The session handle is opaque, so it is embedded as `Option Unit`. -/
structure AppState where
  chat : Option Unit
  messages : List Message
  userInput : String
  isLoading : Bool
  error : Option String
deriving DecidableEq, Repr

/-- The initial values passed to the five `useState` calls. -/
def initialState : AppState :=
  { chat := none, messages := [], userInput := "", isLoading := false, error := none }

/-- The error string set by `initChat` on failure (src/index.tsx line 31). -/
def initErrorText : String := "Failed to initialize the AI. Please check the API key."

/-- The error string set on stream failure (src/index.tsx line 69). -/
def streamErrorText : String := "An error occurred while getting the response. Please try again."

/-- `initChat` (src/index.tsx lines 19-33), run once from the mount
effect.  `success` tells whether the external `ai.chats.create` call
succeeded; on success the handle is stored, on failure only the error
string is set and the handle stays null. -/
def initChat (s : AppState) (success : Bool) : AppState :=
  if success then { s with chat := some () }
  else { s with error := some initErrorText }

/-- The guard test `!userInput.trim()` (src/index.tsx line 46): the
submitted text becomes empty under trimming exactly when every one of
its characters is whitespace.  Stated this way the test is directly
computable. -/
def isBlank (s : String) : Bool := s.data.all Char.isWhitespace

/-- One iteration of the chunk loop (src/index.tsx lines 61-65): copy the
list and append the chunk text to the text of its last element.  On an
empty list the source expression `newMessages[newMessages.length - 1]`
would be undefined and the member access would throw; that case is
unreachable in the component (a placeholder is always appended first),
and the embedding returns the empty list there. -/
def applyChunk (msgs : List Message) (chunkText : String) : List Message :=
  match msgs.getLast? with
  | some last => msgs.dropLast ++ [{ last with text := last.text ++ chunkText }]
  | none => []

/-- Observable outcome of the external stream for one send: either it
delivers all its chunks and ends normally, or it delivers some prefix of
chunks and then raises. -/
inductive StreamOutcome where
  | ok (chunks : List String)
  | fail (chunksBefore : List String)
deriving DecidableEq, Repr

/-- `handleSendMessage` (src/index.tsx lines 44-74) as a state
transformer, parameterised by the stream outcome.  Guard, the two
appends, the chunk loop, the catch branch and the finally branch follow
the source line by line; the placeholder is appended inside the `try`
before the first suspension point, so every failure happens after it. -/
def handleSendMessage (s : AppState) (outcome : StreamOutcome) : AppState :=
  if isBlank s.userInput || s.isLoading || s.chat.isNone then s
  else
    let userMessage : Message := { role := .user, text := s.userInput }
    let s1 := { s with
      messages := s.messages ++ [userMessage]
      userInput := ""
      isLoading := true
      error := none }
    let s2 := { s1 with messages := s1.messages ++ [({ role := .model, text := "" } : Message)] }
    match outcome with
    | .ok chunks =>
        let s3 := { s2 with messages := chunks.foldl applyChunk s2.messages }
        { s3 with isLoading := false }
    | .fail chunksBefore =>
        let s3 := { s2 with messages := chunksBefore.foldl applyChunk s2.messages }
        { s3 with
          error := some streamErrorText
          messages := s3.messages.dropLast
          isLoading := false }

/-- The `disabled` attribute of the text input (src/index.tsx line 123). -/
def inputFieldDisabled (s : AppState) : Bool := s.isLoading

/-- The `disabled` attribute of the submit button (src/index.tsx
line 126): `isLoading || !userInput.trim()`. -/
def sendButtonDisabled (s : AppState) : Bool := s.isLoading || isBlank s.userInput

/-- Whether the welcome placeholder renders (src/index.tsx line 97):
`messages.length === 0 && !isLoading`. -/
def welcomeShown (s : AppState) : Bool := s.messages.isEmpty && !s.isLoading

/-- Whether the error banner renders (src/index.tsx line 113). -/
def errorShown (s : AppState) : Bool := s.error.isSome

/-- A user-interface event: typing into the text field (the `onChange`
handler on line 120) or submitting the form with a given stream
outcome. -/
inductive Event where
  | type (text : String)
  | submit (outcome : StreamOutcome)
deriving DecidableEq, Repr

/-- One event step of the component. -/
def stepEvent (s : AppState) : Event → AppState
  | .type t => { s with userInput := t }
  | .submit o => handleSendMessage s o

/-- Run a list of events from a state. -/
def run (s : AppState) (es : List Event) : AppState := es.foldl stepEvent s

/-! ### Basic lemmas about the chunk fold -/

theorem foldl_string_append (cs : List String) (a : String) :
    cs.foldl (fun r s => r ++ s) a = a ++ cs.foldl (fun r s => r ++ s) "" := by
  induction cs generalizing a with
  | nil => simp
  | cons c cs ih =>
      simp only [List.foldl_cons, String.empty_append]
      rw [ih (a ++ c), ih c, String.append_assoc]

theorem applyChunk_concat (msgs : List Message) (m : Message) (c : String) :
    applyChunk (msgs ++ [m]) c = msgs ++ [{ m with text := m.text ++ c }] := by
  simp [applyChunk]

theorem foldl_applyChunk (cs : List String) (msgs : List Message) (m : Message) :
    cs.foldl applyChunk (msgs ++ [m])
      = msgs ++ [{ m with text := m.text ++ String.join cs }] := by
  induction cs generalizing m with
  | nil => simp [String.join]
  | cons c cs ih =>
      rw [List.foldl_cons, applyChunk_concat, ih]
      simp only [String.join, List.foldl_cons, String.empty_append]
      rw [foldl_string_append cs c, String.append_assoc]

/-! ### Closed forms of the send operation -/

theorem handleSendMessage_ok_eq (s : AppState) (chunks : List String)
    (h1 : isBlank s.userInput = false) (h2 : s.isLoading = false)
    (h3 : s.chat.isNone = false) :
    handleSendMessage s (.ok chunks) =
      { s with
        messages := s.messages ++
          [{ role := .user, text := s.userInput },
           { role := .model, text := String.join chunks }]
        userInput := ""
        isLoading := false
        error := none } := by
  unfold handleSendMessage
  rw [h1, h2, h3]
  simp only [Bool.or_self, Bool.or_false, Bool.false_or, Bool.false_eq_true, if_false]
  rw [foldl_applyChunk]
  simp [String.empty_append, List.append_assoc]

theorem handleSendMessage_fail_eq (s : AppState) (chunks : List String)
    (h1 : isBlank s.userInput = false) (h2 : s.isLoading = false)
    (h3 : s.chat.isNone = false) :
    handleSendMessage s (.fail chunks) =
      { s with
        messages := s.messages ++ [{ role := .user, text := s.userInput }]
        userInput := ""
        isLoading := false
        error := some streamErrorText } := by
  unfold handleSendMessage
  rw [h1, h2, h3]
  simp only [Bool.or_self, Bool.or_false, Bool.false_or, Bool.false_eq_true, if_false]
  rw [foldl_applyChunk]
  simp [List.dropLast_concat]

theorem handleSendMessage_noop (s : AppState)
    (h : isBlank s.userInput = true ∨ s.isLoading = true ∨ s.chat = none)
    (o : StreamOutcome) :
    handleSendMessage s o = s := by
  unfold handleSendMessage
  rcases h with h | h | h <;> simp [h]

theorem handleSendMessage_chat (s : AppState) (o : StreamOutcome) :
    (handleSendMessage s o).chat = s.chat := by
  unfold handleSendMessage
  split
  · rfl
  · cases o <;> rfl

theorem run_cons (s : AppState) (e : Event) (es : List Event) :
    run s (e :: es) = run (stepEvent s e) es := rfl

theorem run_preserves_failed_init (es : List Event) (s : AppState)
    (hc : s.chat = none) (hm : s.messages = []) (he : s.error = some initErrorText) :
    (run s es).chat = none ∧ (run s es).messages = [] ∧
    (run s es).error = some initErrorText := by
  induction es generalizing s with
  | nil => exact ⟨hc, hm, he⟩
  | cons e es ih =>
      rw [run_cons]
      cases e with
      | type t => exact ih { s with userInput := t } hc hm he
      | submit o =>
          rw [stepEvent, handleSendMessage_noop s (Or.inr (Or.inr hc)) o]
          exact ih s hc hm he

/-! ### The claims -/

/-- Claim C1: for every send whose stream fails at any point, after zero
or more chunks, the operation removes the last model message, sets the
user-visible error string, sets in-flight to false, and the conversation
afterwards equals the conversation before plus exactly the one user
message that triggered the send. -/
theorem stream_failure_rolls_back_placeholder (s : AppState) (chunks : List String)
    (h1 : isBlank s.userInput = false) (h2 : s.isLoading = false)
    (h3 : s.chat.isNone = false) :
    (handleSendMessage s (.fail chunks)).messages
        = s.messages ++ [{ role := .user, text := s.userInput }] ∧
    (handleSendMessage s (.fail chunks)).error = some streamErrorText ∧
    (handleSendMessage s (.fail chunks)).isLoading = false := by
  rw [handleSendMessage_fail_eq s chunks h1 h2 h3]
  exact ⟨rfl, rfl, rfl⟩

/-- Witness for C1 at a concrete state: the stream fails after one chunk
and only the user message remains. -/
theorem stream_failure_rolls_back_placeholder_witness :
    (handleSendMessage
        { chat := some (), messages := [], userInput := "hello",
          isLoading := false, error := none } (.fail ["par"])).messages
        = [{ role := .user, text := "hello" }] ∧
    (handleSendMessage
        { chat := some (), messages := [], userInput := "hello",
          isLoading := false, error := none } (.fail ["par"])).error
        = some streamErrorText ∧
    (handleSendMessage
        { chat := some (), messages := [], userInput := "hello",
          isLoading := false, error := none } (.fail ["par"])).isLoading = false :=
  stream_failure_rolls_back_placeholder
    { chat := some (), messages := [], userInput := "hello",
      isLoading := false, error := none } ["par"] rfl rfl rfl

/-- Claim C2: for every input non-empty after trimming, submitted while
not in flight with a session available, a send whose stream succeeds
appends exactly one user message followed by exactly one model message
to the conversation, and nothing else. -/
theorem send_appends_user_then_model (s : AppState) (chunks : List String)
    (h1 : isBlank s.userInput = false) (h2 : s.isLoading = false)
    (h3 : s.chat.isNone = false) :
    (handleSendMessage s (.ok chunks)).messages
        = s.messages ++
          [{ role := .user, text := s.userInput },
           { role := .model, text := String.join chunks }] := by
  rw [handleSendMessage_ok_eq s chunks h1 h2 h3]

/-- Witness for C2 at a concrete state. -/
theorem send_appends_user_then_model_witness :
    (handleSendMessage
        { chat := some (), messages := [], userInput := "hi",
          isLoading := false, error := none } (.ok ["ok"])).messages
        = [{ role := .user, text := "hi" }, { role := .model, text := "ok" }] :=
  send_appends_user_then_model
    { chat := some (), messages := [], userInput := "hi",
      isLoading := false, error := none } ["ok"] rfl rfl rfl

/-- Claim C3: for every finite chunk sequence of a successful stream,
folding the chunk reducer in delivery order leaves a final model message
whose text is the left-to-right concatenation of the chunk texts. -/
theorem final_model_text_is_chunk_concat (s : AppState) (chunks : List String)
    (h1 : isBlank s.userInput = false) (h2 : s.isLoading = false)
    (h3 : s.chat.isNone = false) :
    ((handleSendMessage s (.ok chunks)).messages).getLast?
        = some { role := .model, text := String.join chunks } := by
  rw [handleSendMessage_ok_eq s chunks h1 h2 h3]
  simp

/-- Witness for C3: the chunks from the specification example,
`Hi` and a space followed by `there`, concatenate to `Hi there`. -/
theorem final_model_text_is_chunk_concat_witness :
    ((handleSendMessage
        { chat := some (), messages := [], userInput := "q",
          isLoading := false, error := none } (.ok ["Hi", " there"])).messages).getLast?
        = some { role := .model, text := "Hi there" } :=
  final_model_text_is_chunk_concat
    { chat := some (), messages := [], userInput := "q",
      isLoading := false, error := none } ["Hi", " there"] rfl rfl rfl

/-- Claim C4: a submission violating any precondition, namely blank
trimmed input, a send already in flight, or no session handle, is a
silent no-op leaving the whole state unchanged. -/
theorem precondition_violation_is_noop (s : AppState)
    (h : isBlank s.userInput = true ∨ s.isLoading = true ∨ s.chat = none)
    (o : StreamOutcome) :
    handleSendMessage s o = s :=
  handleSendMessage_noop s h o

/-- Witness for C4: submitting from the initial state, where the input
is blank and no session exists, changes nothing. -/
theorem precondition_violation_is_noop_witness :
    (isBlank initialState.userInput = true ∨ initialState.isLoading = true ∨
      initialState.chat = none) ∧
    handleSendMessage initialState (.ok ["x"]) = initialState :=
  ⟨Or.inl rfl, precondition_violation_is_noop initialState (Or.inl rfl) (.ok ["x"])⟩

/-- Claim C5: every operation preserves the role of every existing
message and never rewrites existing text: the chunk reducer keeps every
role, touches only the last entry and only extends its text by the
fragment; `initChat` leaves the conversation untouched; and a send
extends the conversation by nothing, by one user message, or by one user
message followed by one model message. -/
theorem conversation_changes_are_limited :
    (∀ msgs c, (applyChunk msgs c).map Message.role = msgs.map Message.role) ∧
    (∀ msgs (m : Message) c,
        applyChunk (msgs ++ [m]) c = msgs ++ [{ m with text := m.text ++ c }]) ∧
    (∀ s success, (initChat s success).messages = s.messages) ∧
    (∀ s o, ∃ t, (handleSendMessage s o).messages = s.messages ++ t ∧
        (t = [] ∨
         (∃ u : Message, u.role = .user ∧ t = [u]) ∨
         (∃ u m : Message, u.role = .user ∧ m.role = .model ∧ t = [u, m]))) := by
  refine ⟨?_, ?_, ?_, ?_⟩
  · intro msgs c
    unfold applyChunk
    match hm : msgs.getLast? with
    | some last =>
        conv_rhs => rw [← List.dropLast_append_getLast? last hm]
        simp
    | none => simp [List.getLast?_eq_none_iff.mp hm]
  · exact fun msgs m c => applyChunk_concat msgs m c
  · intro s success
    unfold initChat
    split <;> rfl
  · intro s o
    by_cases hguard : (isBlank s.userInput || s.isLoading || s.chat.isNone) = true
    · refine ⟨[], ?_, Or.inl rfl⟩
      unfold handleSendMessage
      rw [if_pos hguard]
      simp
    · simp only [Bool.or_eq_true, not_or, Bool.not_eq_true] at hguard
      obtain ⟨⟨h1, h2⟩, h3⟩ := hguard
      cases o with
      | ok chunks =>
          exact ⟨[{ role := .user, text := s.userInput },
                  { role := .model, text := String.join chunks }],
            by rw [handleSendMessage_ok_eq s chunks h1 h2 h3],
            Or.inr (Or.inr ⟨_, _, rfl, rfl, rfl⟩)⟩
      | fail chunks =>
          exact ⟨[{ role := .user, text := s.userInput }],
            by rw [handleSendMessage_fail_eq s chunks h1 h2 h3],
            Or.inr (Or.inl ⟨_, rfl, rfl⟩)⟩

/-- Claim C6: if session creation at process start fails, then under any
subsequent sequence of user events the handle stays unavailable, the
descriptive error stays recorded, every send is a no-op (the
conversation stays empty), and no event ever creates or replaces a
handle, so the handle is created at most once per process lifetime. -/
theorem failed_init_is_permanent (es : List Event) :
    (run (initChat initialState false) es).chat = none ∧
    (run (initChat initialState false) es).messages = [] ∧
    (run (initChat initialState false) es).error = some initErrorText ∧
    (∀ o, handleSendMessage (run (initChat initialState false) es) o
        = run (initChat initialState false) es) ∧
    (∀ s e, (stepEvent s e).chat = s.chat) := by
  obtain ⟨hc, hm, he⟩ := run_preserves_failed_init es (initChat initialState false) rfl rfl rfl
  refine ⟨hc, hm, he, fun o => handleSendMessage_noop _ (Or.inr (Or.inr hc)) o, ?_⟩
  intro s e
  cases e with
  | type t => rfl
  | submit o => exact handleSendMessage_chat s o

/-- Claim C7: every send that passes its preconditions leaves the input
field cleared and the in-flight flag false once it completes, whether
the stream succeeded or failed. -/
theorem send_clears_input_and_inflight (s : AppState) (o : StreamOutcome)
    (h1 : isBlank s.userInput = false) (h2 : s.isLoading = false)
    (h3 : s.chat.isNone = false) :
    (handleSendMessage s o).userInput = "" ∧
    (handleSendMessage s o).isLoading = false := by
  cases o with
  | ok chunks => rw [handleSendMessage_ok_eq s chunks h1 h2 h3]; exact ⟨rfl, rfl⟩
  | fail chunks => rw [handleSendMessage_fail_eq s chunks h1 h2 h3]; exact ⟨rfl, rfl⟩

/-- Witness for C7 at a concrete state with a failing stream. -/
theorem send_clears_input_and_inflight_witness :
    (handleSendMessage
        { chat := some (), messages := [], userInput := "abc",
          isLoading := false, error := none } (.fail [])).userInput = "" ∧
    (handleSendMessage
        { chat := some (), messages := [], userInput := "abc",
          isLoading := false, error := none } (.fail [])).isLoading = false :=
  send_clears_input_and_inflight
    { chat := some (), messages := [], userInput := "abc",
      isLoading := false, error := none } (.fail []) rfl rfl rfl

/-- Counterexample to claim C8 as stated: in the idle state with an
empty input the trimmed input is empty, yet the text input control is
not disabled, because its disabled attribute tests only the in-flight
flag. -/
theorem input_field_not_disabled_on_empty_input :
    isBlank (AppState.mk (some ()) [] "" false none).userInput = true ∧
    inputFieldDisabled (AppState.mk (some ()) [] "" false none) = false :=
  ⟨rfl, rfl⟩

/-- Claim C8 amended: the submit control is disabled exactly when a send
is in flight or the trimmed input is empty, while the text input is
disabled exactly when a send is in flight. -/
theorem disabled_control_predicates (s : AppState) :
    (sendButtonDisabled s = true ↔
      (s.isLoading = true ∨ isBlank s.userInput = true)) ∧
    (inputFieldDisabled s = true ↔ s.isLoading = true) := by
  constructor
  · simp [sendButtonDisabled]
  · simp [inputFieldDisabled]

/-- Counterexample to claim C9 as stated: after session creation fails,
the welcome placeholder is still rendered, because its render condition
tests only that the message list is empty and no send is in flight. -/
theorem welcome_still_shown_after_failed_init :
    welcomeShown (initChat initialState false) = true ∧
    errorShown (initChat initialState false) = true :=
  ⟨rfl, rfl⟩

/-- Claim C9 amended: on initial load the UI shows zero messages and the
welcome placeholder; after session creation fails the welcome
placeholder is still shown, the static error text is shown in addition,
and any submit remains a no-op because no session exists. -/
theorem initial_and_failed_init_rendering :
    welcomeShown initialState = true ∧
    initialState.messages = [] ∧
    welcomeShown (initChat initialState false) = true ∧
    (initChat initialState false).error = some initErrorText ∧
    errorShown (initChat initialState false) = true ∧
    ∀ o, handleSendMessage (initChat initialState false) o
        = initChat initialState false := by
  refine ⟨rfl, rfl, rfl, rfl, rfl, fun o => ?_⟩
  exact handleSendMessage_noop _ (Or.inr (Or.inr rfl)) o

/-- Claim C10: the user message stored by a send carries the exact
untrimmed input text; trimming is applied only in the guard, never to
the stored text. -/
theorem stored_user_text_is_untrimmed (s : AppState) (o : StreamOutcome)
    (h1 : isBlank s.userInput = false) (h2 : s.isLoading = false)
    (h3 : s.chat.isNone = false) :
    ((handleSendMessage s o).messages)[s.messages.length]?
        = some { role := .user, text := s.userInput } := by
  cases o with
  | ok chunks =>
      rw [handleSendMessage_ok_eq s chunks h1 h2 h3]
      rw [List.getElem?_append_right (Nat.le_refl _)]
      simp
  | fail chunks =>
      rw [handleSendMessage_fail_eq s chunks h1 h2 h3]
      rw [List.getElem?_append_right (Nat.le_refl _)]
      simp

/-- Witness for C10: an input padded with spaces is stored with its
padding intact. -/
theorem stored_user_text_is_untrimmed_witness :
    ((handleSendMessage
        { chat := some (), messages := [], userInput := "  hi  ",
          isLoading := false, error := none } (.ok ["y"])).messages)[(0 : Nat)]?
        = some { role := .user, text := "  hi  " } :=
  stored_user_text_is_untrimmed
    { chat := some (), messages := [], userInput := "  hi  ",
      isLoading := false, error := none } (.ok ["y"]) rfl rfl rfl

end Zano
